import Mathlib

/-!
Verification of the authenticated Ollama proxy server (src/server.js).

The server exposes a single POST "/" handler which:
  1. reads the Authorization header (absent falls back to the empty string),
  2. rejects with 401 and body `\x7b error: "unauthorized" \x7d` when the
     configured API_KEYS string is empty or differs from the header,
  3. otherwise extracts `model`, `messages`, `stream` from the request body
     with optional chaining (`stream` defaulted with `|| false`),
  4. performs one fetch to the fixed Ollama endpoint with body
     JSON.stringify of the three extracted fields,
  5. awaits `response.json()` and returns it with `res.json(data)`.

The embedding below models JavaScript JSON values, the truthiness rules the
code relies on, the optional-chaining field access, the key-dropping
behaviour of JSON.stringify on `undefined` values, and the handler itself as
a pure function of the configured key, the inbound request, and a downstream
oracle describing how the single fetch behaves.  The oracle records what the
fetch resolves to: a network error (the promise rejects), or a response whose
raw body arrived as a list of chunks and whose `.json()` either rejects or
resolves to a value.  Unhandled rejections escape the async handler; the
embedding records them as `HandlerResult.thrown`.
-/

/-- A JSON value as produced by `express.json()` / consumed by
`JSON.stringify`.  JavaScript `undefined` is not a JSON value; it is
represented by `Option.none` wherever it can occur. -/
inductive Json where
  | null : Json
  | bool : Bool → Json
  | num : Int → Json
  | str : String → Json
  | arr : List Json → Json
  | obj : List (String × Json) → Json
deriving Repr

/-- JavaScript truthiness of a defined value (`null`, `false`, `0` and `""`
are falsy; arrays and objects are always truthy). -/
def jsTruthy : Json → Bool
  | Json.null => false
  | Json.bool b => b
  | Json.num n => n != 0
  | Json.str s => s != ""
  | Json.arr _ => true
  | Json.obj _ => true

/-- JavaScript `x || d` on an optional string, as in
`req.headers.authorization || ""` and `process.env.API_KEYS || ""`:
`undefined` and the empty string fall back to the default. -/
def jsOrStr (x : Option String) (d : String) : String :=
  match x with
  | none => d
  | some s => if s = "" then d else s

/-- JavaScript `x || d` on a possibly-undefined JSON value, as in
`req.body?.stream || false`: `undefined` and falsy values fall back. -/
def jsOrJson (x : Option Json) (d : Json) : Json :=
  match x with
  | none => d
  | some v => if jsTruthy v then v else d

/-- Optional-chaining property access `body?.key`.  Yields `undefined`
(`none`) when the base is `undefined` or `null`, looks the key up when the
base is an object, and yields `undefined` on any other primitive (property
access on primitives does not throw in JavaScript). -/
def jsGet (body : Option Json) (key : String) : Option Json :=
  match body with
  | none => none
  | some (Json.obj fields) => fields.lookup key
  | some _ => none

/-- `process.env.API_KEYS || ""` from server.js line 41: the configured key,
with unset and empty both collapsing to the empty string. -/
def apiKeysOf (env : Option String) : String :=
  jsOrStr env ""

/-- An inbound HTTP request as the handler sees it: the Authorization header
(`none` when absent), the parsed JSON body (`none` when absent), and the
remaining headers, which the handler never reads. -/
structure Request where
  authorization : Option String
  body : Option Json
  otherHeaders : List (String × String)
deriving Repr

/-- The outbound fetch the handler issues: fixed URL, method and
content type, and the serialized body represented as its ordered field
list (JSON.stringify drops keys whose value is `undefined`). -/
structure OutboundCall where
  url : String
  method : String
  contentType : String
  bodyFields : List (String × Json)
deriving Repr

/-- What the downstream fetch resolved to: the raw body as the list of
chunks in arrival order, and what `response.json()` settles to (`Except.ok`
a value, or `Except.error` when the body is not valid JSON). -/
structure DSResponse where
  chunks : List String
  parsed : Except Unit Json

/-- Outcome of the single fetch: the fetch promise rejects (network error),
or it resolves to a response. -/
inductive DSOutcome where
  | netError : DSOutcome
  | ok : DSResponse → DSOutcome

/-- The exceptions that can escape the handler: a rejected fetch, or a
rejected `response.json()`. -/
inductive JsError where
  | fetchFailed : JsError
  | parseFailed : JsError
deriving Repr, DecidableEq

/-- What the handler does for the caller: send one response
(`res.status(s).json(b)`, with `res.json(b)` meaning status 200), or throw,
i.e. the async function rejects and no response is produced by the handler
itself. -/
inductive HandlerResult where
  | response : Nat → Json → HandlerResult
  | thrown : JsError → HandlerResult
deriving Repr

/-- Full observable behaviour of one handler run: the outbound calls made,
in order, and the result delivered to (or withheld from) the caller. -/
structure HandlerOutput where
  calls : List OutboundCall
  result : HandlerResult

/-- The guard of server.js line 70, `!API_KEYS || API_KEYS !== authorization`,
with `authorization = req.headers.authorization || ""` from line 65. -/
def authRejects (API_KEYS : String) (req : Request) : Bool :=
  (API_KEYS == "") || !(API_KEYS == jsOrStr req.authorization "")

/-- The 401 body of server.js line 73. -/
def unauthorizedBody : Json :=
  Json.obj [("error", Json.str "unauthorized")]

/-- The object literal of server.js line 92 after JSON.stringify:
`\x7b model, messages, stream \x7d` with `undefined`-valued keys dropped. -/
def outboundFields (model messages : Option Json) (stream : Json) :
    List (String × Json) :=
  (match model with | none => [] | some v => [("model", v)]) ++
  (match messages with | none => [] | some v => [("messages", v)]) ++
  [("stream", stream)]

/-- The fetch of server.js lines 88-93, as a function of the request: fixed
endpoint, POST, JSON content type, and the narrowed body. -/
def outboundCall (req : Request) : OutboundCall :=
  { url := "http://localhost:11434/api/chat"
    method := "POST"
    contentType := "application/json"
    bodyFields :=
      outboundFields (jsGet req.body "model") (jsGet req.body "messages")
        (jsOrJson (jsGet req.body "stream") (Json.bool false)) }

/-- The POST "/" handler of server.js lines 62-103, parameterised by the
configured key and by a downstream oracle giving the outcome of the fetch. -/
def handle (API_KEYS : String) (req : Request)
    (downstream : OutboundCall → DSOutcome) : HandlerOutput :=
  if authRejects API_KEYS req then
    { calls := [], result := HandlerResult.response 401 unauthorizedBody }
  else
    let call := outboundCall req
    match downstream call with
    | DSOutcome.netError =>
        { calls := [call], result := HandlerResult.thrown JsError.fetchFailed }
    | DSOutcome.ok resp =>
        match resp.parsed with
        | Except.error _ =>
            { calls := [call],
              result := HandlerResult.thrown JsError.parseFailed }
        | Except.ok data =>
            { calls := [call], result := HandlerResult.response 200 data }

/-- The payloads the caller receives from the handler, in order: one for a
sent response, none when the handler threw. -/
def callerWrites : HandlerResult → List Json
  | HandlerResult.response _ b => [b]
  | HandlerResult.thrown _ => []

/-- Whether a handler run ended in the 401 unauthorized rejection. -/
def isUnauthorized (o : HandlerOutput) : Bool :=
  match o.result with
  | HandlerResult.response s _ => s == 401
  | HandlerResult.thrown _ => false

/-- Number of chunks the downstream delivered, when it responded. -/
def dsChunkCount : DSOutcome → Nat
  | DSOutcome.netError => 0
  | DSOutcome.ok resp => resp.chunks.length

/-! ## Concrete requests and downstream oracles used in witnesses -/

/-- A request carrying the wrong credential. -/
def reqWrongAuth : Request :=
  { authorization := some "wrong", body := none, otherHeaders := [] }

/-- An authenticated chat request whose body has a model but no messages. -/
def reqChat : Request :=
  { authorization := some "k",
    body := some (Json.obj [("model", Json.str "llama3")]),
    otherHeaders := [] }

/-- An authenticated request with no body at all. -/
def reqNoBody : Request :=
  { authorization := some "k", body := none, otherHeaders := [] }

/-- An authenticated request asking for streaming. -/
def reqStreamTrue : Request :=
  { authorization := some "k",
    body := some (Json.obj [("model", Json.str "m"), ("stream", Json.bool true)]),
    otherHeaders := [] }

/-- An authenticated request with an extra body field and no stream field. -/
def reqExtraField : Request :=
  { authorization := some "k",
    body := some (Json.obj [("model", Json.str "m"), ("extra", Json.str "x")]),
    otherHeaders := [] }

/-- The full valid request of the spec's third testable property. -/
def reqFull : Request :=
  { authorization := some "k",
    body := some (Json.obj
      [("model", Json.str "llama3"),
       ("messages", Json.arr
         [Json.obj [("role", Json.str "user"), ("content", Json.str "hi")]]),
       ("stream", Json.bool false)]),
    otherHeaders := [] }

/-- A downstream whose fetch always rejects. -/
def dsNet : OutboundCall → DSOutcome := fun _ => DSOutcome.netError

/-- A mock downstream that echoes the JSON object `\x7b ok: true \x7d`. -/
def dsEcho : OutboundCall → DSOutcome := fun _ =>
  DSOutcome.ok
    { chunks := ["\x7b\"ok\":true\x7d"],
      parsed := Except.ok (Json.obj [("ok", Json.bool true)]) }

/-- A mock downstream emitting three incremental chunks A, B, C whose
concatenation parses to a value. -/
def dsStream3 : OutboundCall → DSOutcome := fun _ =>
  DSOutcome.ok
    { chunks := ["A", "B", "C"], parsed := Except.ok (Json.str "ABC") }

/-! ## Helper lemmas shared by several claims -/

/-- When the guard rejects, the handler answers 401 with the unauthorized
body and makes no outbound call. -/
theorem handle_of_rejects (keys : String) (req : Request)
    (ds : OutboundCall → DSOutcome) (h : authRejects keys req = true) :
    handle keys req ds =
      { calls := [], result := HandlerResult.response 401 unauthorizedBody } := by
  simp [handle, h]

/-- When the guard accepts, the handler makes exactly the one outbound call
built from the request, whatever the downstream does. -/
theorem handle_calls_of_accepts (keys : String) (req : Request)
    (ds : OutboundCall → DSOutcome) (h : authRejects keys req = false) :
    (handle keys req ds).calls = [outboundCall req] := by
  cases hds : ds (outboundCall req) with
  | netError => simp [handle, h, hds]
  | ok resp => cases hp : resp.parsed <;> simp [handle, h, hds, hp]

/-- The guard only reads the key and the Authorization header. -/
theorem authRejects_congr (keys : String) (r1 r2 : Request)
    (h : r1.authorization = r2.authorization) :
    authRejects keys r1 = authRejects keys r2 := by
  simp [authRejects, h]

/-- A handler run ends 401-unauthorized exactly when the guard rejects. -/
theorem isUnauthorized_handle (keys : String) (req : Request)
    (ds : OutboundCall → DSOutcome) :
    isUnauthorized (handle keys req ds) = authRejects keys req := by
  cases h : authRejects keys req with
  | false =>
    cases hds : ds (outboundCall req) with
    | netError => simp [handle, h, hds, isUnauthorized]
    | ok resp => cases hp : resp.parsed <;> simp [handle, h, hds, hp, isUnauthorized]
  | true => simp [handle, h, isUnauthorized, unauthorizedBody]

/-! ## Claims -/

/-- Claim C1: for every inbound request whose Authorization header is
missing or does not exactly match the configured credential, the handler
responds 401 with the unauthorized error body and makes no downstream call
(it returns before the fetch). -/
theorem auth_mismatch_401_no_downstream (keys : String) (req : Request)
    (ds : OutboundCall → DSOutcome)
    (h : req.authorization = none ∨ jsOrStr req.authorization "" ≠ keys) :
    handle keys req ds =
      { calls := [], result := HandlerResult.response 401 unauthorizedBody } := by
  apply handle_of_rejects
  rcases h with h | h
  · by_cases hk : keys = ""
    · simp [authRejects, hk]
    · simp [authRejects, h, jsOrStr, hk]
  · by_cases hk : keys = ""
    · simp [authRejects, hk]
    · simp [authRejects, hk]
      exact fun e => h e.symm

theorem auth_mismatch_401_no_downstream_witness :
    (reqWrongAuth.authorization = none ∨
      jsOrStr reqWrongAuth.authorization "" ≠ "secret") ∧
    handle "secret" reqWrongAuth dsNet =
      { calls := [], result := HandlerResult.response 401 unauthorizedBody } :=
  ⟨Or.inr (by decide),
   auth_mismatch_401_no_downstream "secret" reqWrongAuth dsNet (Or.inr (by decide))⟩

/-- Claim C2: when API_KEYS is unset or the empty string, every request is
rejected with the 401 unauthorized outcome (and no downstream call),
whatever its Authorization header — the unconfigured credential is
fail-closed, even though an empty header equals an empty credential under
string equality. -/
theorem empty_api_keys_rejects_all (req : Request)
    (ds : OutboundCall → DSOutcome) :
    handle (apiKeysOf none) req ds =
      { calls := [], result := HandlerResult.response 401 unauthorizedBody } ∧
    handle (apiKeysOf (some "")) req ds =
      { calls := [], result := HandlerResult.response 401 unauthorizedBody } := by
  constructor <;>
    · apply handle_of_rejects
      simp [authRejects, apiKeysOf, jsOrStr]

/-- Claim C8 (confirmed): every handler run makes exactly one outbound call
when the guard accepts and exactly zero when it rejects; in particular no
downstream failure is ever retried. -/
theorem downstream_call_count (keys : String) (req : Request)
    (ds : OutboundCall → DSOutcome) :
    (handle keys req ds).calls.length =
      if authRejects keys req then 0 else 1 := by
  cases h : authRejects keys req with
  | false =>
    have hc := handle_calls_of_accepts keys req ds h
    simp [hc]
  | true =>
    have hr := handle_of_rejects keys req ds h
    simp [hr]

/-- Claim C10: the accept/reject outcome of authentication is a function of
the configured key and the Authorization header alone — two requests with
the same header, handled under the same key, get the same outcome whatever
their bodies, other headers, or downstream behaviour. -/
theorem auth_decision_header_only (keys : String) (r1 r2 : Request)
    (ds1 ds2 : OutboundCall → DSOutcome)
    (h : r1.authorization = r2.authorization) :
    isUnauthorized (handle keys r1 ds1) = isUnauthorized (handle keys r2 ds2) := by
  rw [isUnauthorized_handle, isUnauthorized_handle, authRejects_congr keys r1 r2 h]

theorem auth_decision_header_only_witness :
    reqChat.authorization = reqStreamTrue.authorization ∧
    isUnauthorized (handle "k" reqChat dsNet) =
      isUnauthorized (handle "k" reqStreamTrue dsEcho) :=
  ⟨rfl, auth_decision_header_only "k" reqChat reqStreamTrue dsNet dsEcho rfl⟩

/-- Claim C3 counterexample: with a valid credential and a downstream whose
fetch fails, the handler does not convert the error into an HTTP response —
it throws (the async handler rejects) and writes nothing to the caller. -/
theorem fetch_error_escapes_uncaught_cex :
    (handle "k" reqChat dsNet).result = HandlerResult.thrown JsError.fetchFailed ∧
    callerWrites (handle "k" reqChat dsNet).result = [] :=
  ⟨rfl, rfl⟩

/-- Claim C3 amended: errors in a request's handling are NOT caught — when
the downstream fetch rejects, or its body fails to parse as JSON, the
handler throws (fetchFailed or parseFailed) and sends no structured HTTP
error response for that request. -/
theorem downstream_errors_escape_handler (keys : String) (req : Request)
    (ds : OutboundCall → DSOutcome) (resp : DSResponse)
    (hauth : authRejects keys req = false)
    (hcase : ds (outboundCall req) = DSOutcome.netError ∨
      (ds (outboundCall req) = DSOutcome.ok resp ∧
        resp.parsed = Except.error ())) :
    ((handle keys req ds).result = HandlerResult.thrown JsError.fetchFailed ∨
      (handle keys req ds).result = HandlerResult.thrown JsError.parseFailed) ∧
    callerWrites (handle keys req ds).result = [] := by
  rcases hcase with h | ⟨h1, h2⟩
  · constructor
    · exact Or.inl (by simp [handle, hauth, h])
    · simp [handle, hauth, h, callerWrites]
  · constructor
    · exact Or.inr (by simp [handle, hauth, h1, h2])
    · simp [handle, hauth, h1, h2, callerWrites]

theorem downstream_errors_escape_handler_witness :
    authRejects "k" reqChat = false ∧
    dsNet (outboundCall reqChat) = DSOutcome.netError ∧
    (((handle "k" reqChat dsNet).result = HandlerResult.thrown JsError.fetchFailed ∨
      (handle "k" reqChat dsNet).result = HandlerResult.thrown JsError.parseFailed) ∧
     callerWrites (handle "k" reqChat dsNet).result = []) :=
  ⟨rfl, rfl,
   downstream_errors_escape_handler "k" reqChat dsNet
     { chunks := [], parsed := Except.error () } rfl (Or.inl rfl)⟩

/-- Claim C4 counterexample: an authenticated request whose body omits
`messages` is NOT answered with a validation error — the handler still makes
the downstream call (one call, not zero) and relays the downstream's 200
response. -/
theorem missing_messages_forwarded_cex :
    jsGet reqChat.body "messages" = none ∧
    (handle "k" reqChat dsEcho).calls.length = 1 ∧
    (handle "k" reqChat dsEcho).result =
      HandlerResult.response 200 (Json.obj [("ok", Json.bool true)]) :=
  ⟨rfl, rfl, rfl⟩

/-- Claim C4 amended: the handler performs no validation of `model` or
`messages`: an authenticated request missing `messages` is forwarded
anyway, with the `messages` key simply omitted from the outbound body. -/
theorem missing_messages_no_validation (keys : String) (req : Request)
    (ds : OutboundCall → DSOutcome)
    (hauth : authRejects keys req = false)
    (hmsg : jsGet req.body "messages" = none) :
    (handle keys req ds).calls = [outboundCall req] ∧
    ¬ "messages" ∈ (outboundCall req).bodyFields.map Prod.fst := by
  constructor
  · exact handle_calls_of_accepts keys req ds hauth
  · cases hm : jsGet req.body "model" <;>
      simp [outboundCall, outboundFields, hmsg, hm]

theorem missing_messages_no_validation_witness :
    authRejects "k" reqChat = false ∧
    jsGet reqChat.body "messages" = none ∧
    ((handle "k" reqChat dsEcho).calls = [outboundCall reqChat] ∧
     ¬ "messages" ∈ (outboundCall reqChat).bodyFields.map Prod.fst) :=
  ⟨rfl, rfl, missing_messages_no_validation "k" reqChat dsEcho rfl rfl⟩

/-- Claim C5 counterexample: a forwarded request need not produce an
outbound body with exactly the three fields — an authenticated request with
no body at all is forwarded with the single field `stream`, because
JSON.stringify drops the `undefined` `model` and `messages`. -/
theorem outbound_field_count_cex :
    ((handle "k" reqNoBody dsEcho).calls.map
      fun c => c.bodyFields.map Prod.fst) = [["stream"]] ∧
    ¬ ((handle "k" reqNoBody dsEcho).calls.map
      fun c => c.bodyFields.map Prod.fst) = [["model", "messages", "stream"]] :=
  ⟨rfl, by decide⟩

/-- Claim C5 amended: the outbound body's fields are always a subset of
model, messages, stream (so an extra inbound field never reaches the
downstream), `stream` is always present with the defaulted value, and it is
`false` when absent from the inbound body; `model`/`messages` are present
only when defined inbound. -/
theorem outbound_field_narrowing (keys : String) (req : Request)
    (ds : OutboundCall → DSOutcome)
    (hauth : authRejects keys req = false) :
    (handle keys req ds).calls = [outboundCall req] ∧
    (outboundCall req).bodyFields.map Prod.fst ⊆ ["model", "messages", "stream"] ∧
    ("stream", jsOrJson (jsGet req.body "stream") (Json.bool false)) ∈
      (outboundCall req).bodyFields ∧
    (jsGet req.body "stream" = none →
      ("stream", Json.bool false) ∈ (outboundCall req).bodyFields) := by
  refine ⟨handle_calls_of_accepts keys req ds hauth, ?_, ?_, ?_⟩
  · intro k hk
    cases hm : jsGet req.body "model" <;>
      cases hg : jsGet req.body "messages" <;>
        (simp [outboundCall, outboundFields, hm, hg] at hk; simp; tauto)
  · simp [outboundCall, outboundFields]
  · intro hs
    simp [outboundCall, outboundFields, hs, jsOrJson]

theorem outbound_field_narrowing_witness :
    authRejects "k" reqExtraField = false ∧
    jsGet reqExtraField.body "stream" = none ∧
    ((handle "k" reqExtraField dsEcho).calls = [outboundCall reqExtraField] ∧
     (outboundCall reqExtraField).bodyFields.map Prod.fst ⊆
       ["model", "messages", "stream"] ∧
     ("stream", Json.bool false) ∈ (outboundCall reqExtraField).bodyFields) :=
  ⟨rfl, rfl,
   (outbound_field_narrowing "k" reqExtraField dsEcho rfl).1,
   (outbound_field_narrowing "k" reqExtraField dsEcho rfl).2.1,
   (outbound_field_narrowing "k" reqExtraField dsEcho rfl).2.2.2 rfl⟩

/-- Claim C6: for an authenticated non-streaming request whose downstream
fetch resolves and whose body parses as JSON, the handler answers HTTP 200
with the downstream's parsed response verbatim. -/
theorem nonstreaming_success_relays_verbatim (keys : String) (req : Request)
    (ds : OutboundCall → DSOutcome) (resp : DSResponse) (d : Json)
    (hauth : authRejects keys req = false)
    (hstream : jsOrJson (jsGet req.body "stream") (Json.bool false) = Json.bool false)
    (hds : ds (outboundCall req) = DSOutcome.ok resp)
    (hparse : resp.parsed = Except.ok d) :
    handle keys req ds =
      { calls := [outboundCall req], result := HandlerResult.response 200 d } := by
  simp [handle, hauth, hds, hparse]

theorem nonstreaming_success_relays_verbatim_witness :
    authRejects "k" reqFull = false ∧
    jsOrJson (jsGet reqFull.body "stream") (Json.bool false) = Json.bool false ∧
    dsEcho (outboundCall reqFull) =
      DSOutcome.ok
        { chunks := ["\x7b\"ok\":true\x7d"],
          parsed := Except.ok (Json.obj [("ok", Json.bool true)]) } ∧
    handle "k" reqFull dsEcho =
      { calls := [outboundCall reqFull],
        result := HandlerResult.response 200 (Json.obj [("ok", Json.bool true)]) } :=
  ⟨rfl, rfl, rfl,
   nonstreaming_success_relays_verbatim "k" reqFull dsEcho
     { chunks := ["\x7b\"ok\":true\x7d"],
       parsed := Except.ok (Json.obj [("ok", Json.bool true)]) }
     (Json.obj [("ok", Json.bool true)]) rfl rfl rfl rfl⟩

/-- Claim C7 counterexample: with a valid credential, `stream: true`, and a
downstream delivering three chunks, the caller does not receive the chunks
as they arrive — the handler buffers, parses, and performs a single write
of the fully parsed body, so the caller-side write count (1) differs from
the downstream chunk count (3). -/
theorem stream_true_buffered_cex :
    dsChunkCount (dsStream3 (outboundCall reqStreamTrue)) = 3 ∧
    callerWrites (handle "k" reqStreamTrue dsStream3).result = [Json.str "ABC"] ∧
    ¬ (callerWrites (handle "k" reqStreamTrue dsStream3).result).length =
      dsChunkCount (dsStream3 (outboundCall reqStreamTrue)) :=
  ⟨rfl, rfl, by decide⟩

/-- Claim C7 amended: the handler has no streaming passthrough — even when
the `stream` flag is truthy it behaves exactly as in the buffered case,
awaiting the full downstream body, parsing it once, and sending the single
parsed value as one 200 response, independent of how the downstream chunked
its body. -/
theorem stream_flag_ignored_buffered (keys : String) (req : Request)
    (ds : OutboundCall → DSOutcome) (resp : DSResponse) (d : Json)
    (hauth : authRejects keys req = false)
    (hstream : jsTruthy (jsOrJson (jsGet req.body "stream") (Json.bool false)) = true)
    (hds : ds (outboundCall req) = DSOutcome.ok resp)
    (hparse : resp.parsed = Except.ok d) :
    handle keys req ds =
      { calls := [outboundCall req], result := HandlerResult.response 200 d } ∧
    callerWrites (handle keys req ds).result = [d] := by
  constructor
  · simp [handle, hauth, hds, hparse]
  · simp [handle, hauth, hds, hparse, callerWrites]

theorem stream_flag_ignored_buffered_witness :
    authRejects "k" reqStreamTrue = false ∧
    jsTruthy (jsOrJson (jsGet reqStreamTrue.body "stream") (Json.bool false)) = true ∧
    dsStream3 (outboundCall reqStreamTrue) =
      DSOutcome.ok { chunks := ["A", "B", "C"], parsed := Except.ok (Json.str "ABC") } ∧
    (handle "k" reqStreamTrue dsStream3 =
      { calls := [outboundCall reqStreamTrue],
        result := HandlerResult.response 200 (Json.str "ABC") } ∧
     callerWrites (handle "k" reqStreamTrue dsStream3).result = [Json.str "ABC"]) :=
  ⟨rfl, rfl, rfl,
   stream_flag_ignored_buffered "k" reqStreamTrue dsStream3
     { chunks := ["A", "B", "C"], parsed := Except.ok (Json.str "ABC") }
     (Json.str "ABC") rfl rfl rfl rfl⟩

/-- Claim C9: an authenticated request with an absent or null body does not
crash the handler: `model` and `messages` extract to undefined, `stream`
defaults to false, and the request is still forwarded, with the outbound
body containing only the field `stream: false`. -/
theorem absent_body_defensive_forward (keys : String) (req : Request)
    (ds : OutboundCall → DSOutcome)
    (hauth : authRejects keys req = false)
    (hbody : req.body = none ∨ req.body = some Json.null) :
    jsGet req.body "model" = none ∧
    jsGet req.body "messages" = none ∧
    jsOrJson (jsGet req.body "stream") (Json.bool false) = Json.bool false ∧
    (outboundCall req).bodyFields = [("stream", Json.bool false)] ∧
    (handle keys req ds).calls = [outboundCall req] := by
  have hm : jsGet req.body "model" = none := by
    rcases hbody with h | h <;> simp [jsGet, h]
  have hg : jsGet req.body "messages" = none := by
    rcases hbody with h | h <;> simp [jsGet, h]
  have hs : jsGet req.body "stream" = none := by
    rcases hbody with h | h <;> simp [jsGet, h]
  refine ⟨hm, hg, ?_, ?_, handle_calls_of_accepts keys req ds hauth⟩
  · simp [hs, jsOrJson]
  · simp [outboundCall, outboundFields, hm, hg, hs, jsOrJson]

theorem absent_body_defensive_forward_witness :
    authRejects "k" reqNoBody = false ∧
    (reqNoBody.body = none ∨ reqNoBody.body = some Json.null) ∧
    (jsGet reqNoBody.body "model" = none ∧
     jsGet reqNoBody.body "messages" = none ∧
     jsOrJson (jsGet reqNoBody.body "stream") (Json.bool false) = Json.bool false ∧
     (outboundCall reqNoBody).bodyFields = [("stream", Json.bool false)] ∧
     (handle "k" reqNoBody dsEcho).calls = [outboundCall reqNoBody]) :=
  ⟨rfl, Or.inl rfl,
   absent_body_defensive_forward "k" reqNoBody dsEcho rfl (Or.inl rfl)⟩
